import Mathlib

/-!
Verification of the synchronization-instruction rule engine of
`source/val/validate_barriers.cpp` (SPIRV-Tools barrier validation pass).

The development shallowly embeds the two functions of that file,
`ValidateMemorySemantics` and `BarriersPass`, as pure Lean functions over an
explicit validation-state record.  External collaborators (the validation
context queries, the scope validators) appear as fields of the state record,
matching the context-query interface of the specification.  Numeric values of
the SPIR-V memory-semantics bit masks come from headers that are not part of
this repository; they are modelled from the specification's concrete examples
(Acquire = 0x2, Release = 0x4, UniformMemory = 0x100, MakeAvailableKHR =
0x10000), with the remaining masks assigned distinct single bits.
-/

namespace SpirvVal

/-- Opcodes relevant to the barrier validation pass.  `other` stands for every
opcode outside the synchronization family (and for type opcodes other than
`OpTypeNamedBarrier` when used as the result of an id lookup). -/
inductive SpvOp where
  | OpControlBarrier
  | OpMemoryBarrier
  | OpNamedBarrierInitialize
  | OpMemoryNamedBarrier
  | OpTypeNamedBarrier
  | other (n : Nat)
deriving DecidableEq

/-- Capabilities queried by the barrier validation pass. -/
inductive SpvCapability where
  | Shader
  | VulkanMemoryModelKHR
  | other (n : Nat)
deriving DecidableEq

/-- Memory models; the pass only distinguishes `VulkanKHR` from the rest. -/
inductive SpvMemoryModel where
  | VulkanKHR
  | other (n : Nat)
deriving DecidableEq

/-- Execution models tested by the deferred control-barrier constraint. -/
inductive SpvExecutionModel where
  | Vertex
  | TessellationControl
  | TessellationEvaluation
  | Geometry
  | Fragment
  | GLCompute
  | Kernel
  | TaskNV
  | MeshNV
  | other (n : Nat)
deriving DecidableEq

/-- Modelled from the spec: memory-semantics ordering-axis bit (value 0x2 from
the specification's concrete examples; the SPIR-V header is not in src). -/
def SpvMemorySemanticsAcquireMask : Nat := 0x2

/-- Modelled from the spec: ordering-axis bit Release (value 0x4). -/
def SpvMemorySemanticsReleaseMask : Nat := 0x4

/-- Modelled from the spec: ordering-axis bit AcquireRelease. -/
def SpvMemorySemanticsAcquireReleaseMask : Nat := 0x8

/-- Modelled from the spec: ordering-axis bit SequentiallyConsistent. -/
def SpvMemorySemanticsSequentiallyConsistentMask : Nat := 0x10

/-- Modelled from the spec: storage-class bit UniformMemory (value 0x100). -/
def SpvMemorySemanticsUniformMemoryMask : Nat := 0x100

/-- Modelled from the spec: storage-class bit SubgroupMemory. -/
def SpvMemorySemanticsSubgroupMemoryMask : Nat := 0x200

/-- Modelled from the spec: storage-class bit WorkgroupMemory. -/
def SpvMemorySemanticsWorkgroupMemoryMask : Nat := 0x400

/-- Modelled from the spec: storage-class bit CrossWorkgroupMemory. -/
def SpvMemorySemanticsCrossWorkgroupMemoryMask : Nat := 0x800

/-- Modelled from the spec: storage-class bit AtomicCounterMemory. -/
def SpvMemorySemanticsAtomicCounterMemoryMask : Nat := 0x1000

/-- Modelled from the spec: storage-class bit ImageMemory. -/
def SpvMemorySemanticsImageMemoryMask : Nat := 0x2000

/-- Modelled from the spec: storage-class bit OutputMemoryKHR. -/
def SpvMemorySemanticsOutputMemoryKHRMask : Nat := 0x4000

/-- Modelled from the spec: cross-axis modifier MakeAvailableKHR (value
0x10000 from the specification's concrete example). -/
def SpvMemorySemanticsMakeAvailableKHRMask : Nat := 0x10000

/-- Modelled from the spec: cross-axis modifier MakeVisibleKHR. -/
def SpvMemorySemanticsMakeVisibleKHRMask : Nat := 0x20000

/-- Union of the four ordering-axis masks, as combined at the call of
`CountSetBits` in the source. -/
def orderingAxisMask : Nat :=
  SpvMemorySemanticsAcquireMask ||| SpvMemorySemanticsReleaseMask |||
  SpvMemorySemanticsAcquireReleaseMask |||
  SpvMemorySemanticsSequentiallyConsistentMask

/-- The restricted storage-class mask used by the Vulkan-environment check. -/
def vulkanStorageClassMask : Nat :=
  SpvMemorySemanticsUniformMemoryMask ||| SpvMemorySemanticsWorkgroupMemoryMask |||
  SpvMemorySemanticsImageMemoryMask ||| SpvMemorySemanticsOutputMemoryKHRMask

/-- The full storage-class mask used by the modifier storage-class check. -/
def fullStorageClassMask : Nat :=
  SpvMemorySemanticsUniformMemoryMask ||| SpvMemorySemanticsSubgroupMemoryMask |||
  SpvMemorySemanticsWorkgroupMemoryMask |||
  SpvMemorySemanticsCrossWorkgroupMemoryMask |||
  SpvMemorySemanticsAtomicCounterMemoryMask |||
  SpvMemorySemanticsImageMemoryMask ||| SpvMemorySemanticsOutputMemoryKHRMask

/-- Modelled from the spec: `spvtools::utils::CountSetBits` (bitutils.h is not
in src).  Every use site first masks its argument with a 32-bit mask, so
counting the low 32 bit positions is exact at every call. -/
def countSetBits (n : Nat) : Nat :=
  ((List.range 32).filter (fun i => n.testBit i)).length

/-- A decoded instruction: opcode, result-type id (0 when absent), the raw
words (word 0 being the opcode word), the logical operand ids, and the id of
the enclosing function. -/
structure Instruction where
  opcode : SpvOp
  typeId : Nat
  words : List Nat
  operands : List Nat
  functionId : Nat

/-- Raw word access, `inst->word(i)`.  The out-of-range branch (defaulting to
0) models an access past the end of the decoded word buffer. -/
def Instruction.word (inst : Instruction) (i : Nat) : Nat :=
  inst.words.getD i 0

/-- One diagnostic constructor per distinct error-return site of the source
file, plus `scopeDiag` for diagnostics produced by the external scope
validators. -/
inductive Diagnostic where
  | semanticsNotInt32
  | semanticsNotConstWithShader
  | seqCstWithVulkanKHRModel
  | outputMemoryKHRWithoutCap
  | makeAvailableKHRWithoutCap
  | makeVisibleKHRWithoutCap
  | multipleOrderingBits
  | makeAvailableKHRWithoutRelease
  | makeVisibleKHRWithoutAcquire
  | vulkanMemoryBarrierNoOrderingBit
  | vulkanMemoryBarrierNoStorageClass
  | modifierWithoutStorageClass
  | namedBarrierInitResultTypeNotNamedBarrier
  | namedBarrierInitSubgroupCountNotInt32
  | memoryNamedBarrierOperandNotNamedBarrier
  | scopeDiag (code : Nat)
deriving DecidableEq

/-- The spec's MissingCapabilityForModifier error kind covers the three
independent capability checks for OutputMemoryKHR, MakeAvailableKHR and
MakeVisibleKHR. -/
def Diagnostic.missingCapForModifier : Diagnostic → Bool
  | .outputMemoryKHRWithoutCap => true
  | .makeAvailableKHRWithoutCap => true
  | .makeVisibleKHRWithoutCap => true
  | _ => false

/-- The ambient validation state: the read-only context queries of the
specification's interface plus the two external scope validators, which the
source calls as black boxes.  `evalInt32IfConst` returns the triple
(is 32-bit int, is constant, value) of `EvalInt32IfConst`;
`targetEnvIsVulkan` models `spvIsVulkanEnv(target_env)`; `irVersion` models
the module's declared IR version (major, minor). -/
structure ValidationState where
  hasCapability : SpvCapability → Bool
  memoryModel : SpvMemoryModel
  targetEnvIsVulkan : Bool
  irVersion : Nat × Nat
  evalInt32IfConst : Nat → Bool × Bool × Nat
  getIdOpcode : Nat → SpvOp
  getTypeId : Nat → Nat
  isIntScalarType : Nat → Bool
  getBitWidth : Nat → Nat
  validateExecutionScope : Instruction → Nat → Option Diagnostic
  validateMemoryScope : Instruction → Nat → Option Diagnostic

/-- Operand-type lookup, `_.GetOperandTypeId(inst, i)`: the type id of the
id found at operand index `i`.  Modelled from the spec interface
`type_of_operand` (validation_state.cpp is not in src); the out-of-range
branch defaults the operand id to 0. -/
def GetOperandTypeId (st : ValidationState) (inst : Instruction) (i : Nat) : Nat :=
  st.getTypeId (inst.operands.getD i 0)

/-- The sequential early-return rule chain of `ValidateMemorySemantics`
(validate_barriers.cpp, lines 42-172), applied to the destructured triple
returned by `EvalInt32IfConst`, in source order.  `none` models
`SPV_SUCCESS`; `some d` models the diagnostic returned at the corresponding
source site.  The Vulkan-environment storage-class check for
`OpControlBarrier` is absent because the source disables it through the
preprocessor. -/
def validateSemanticsValue (st : ValidationState) (inst : Instruction)
    (is_int32 is_const_int32 : Bool) (value : Nat) : Option Diagnostic :=
  if is_int32 = false then
      some .semanticsNotInt32
    else if is_const_int32 = false then
      if st.hasCapability .Shader = true then
        some .semanticsNotConstWithShader
      else
        none
    else if st.memoryModel = .VulkanKHR ∧
        value &&& SpvMemorySemanticsSequentiallyConsistentMask ≠ 0 then
      some .seqCstWithVulkanKHRModel
    else if value &&& SpvMemorySemanticsOutputMemoryKHRMask ≠ 0 ∧
        st.hasCapability .VulkanMemoryModelKHR = false then
      some .outputMemoryKHRWithoutCap
    else if value &&& SpvMemorySemanticsMakeAvailableKHRMask ≠ 0 ∧
        st.hasCapability .VulkanMemoryModelKHR = false then
      some .makeAvailableKHRWithoutCap
    else if value &&& SpvMemorySemanticsMakeVisibleKHRMask ≠ 0 ∧
        st.hasCapability .VulkanMemoryModelKHR = false then
      some .makeVisibleKHRWithoutCap
    else if 1 < countSetBits (value &&& orderingAxisMask) then
      some .multipleOrderingBits
    else if value &&& SpvMemorySemanticsMakeAvailableKHRMask ≠ 0 ∧
        value &&& (SpvMemorySemanticsReleaseMask |||
          SpvMemorySemanticsAcquireReleaseMask) = 0 then
      some .makeAvailableKHRWithoutRelease
    else if value &&& SpvMemorySemanticsMakeVisibleKHRMask ≠ 0 ∧
        value &&& (SpvMemorySemanticsAcquireMask |||
          SpvMemorySemanticsAcquireReleaseMask) = 0 then
      some .makeVisibleKHRWithoutAcquire
    else if st.targetEnvIsVulkan = true ∧ inst.opcode = .OpMemoryBarrier ∧
        countSetBits (value &&& orderingAxisMask) = 0 then
      some .vulkanMemoryBarrierNoOrderingBit
    else if st.targetEnvIsVulkan = true ∧ inst.opcode = .OpMemoryBarrier ∧
        value &&& vulkanStorageClassMask = 0 then
      some .vulkanMemoryBarrierNoStorageClass
    else if value &&& (SpvMemorySemanticsMakeAvailableKHRMask |||
          SpvMemorySemanticsMakeVisibleKHRMask) ≠ 0 ∧
        value &&& fullStorageClassMask = 0 then
      some .modifierWithoutStorageClass
    else
      none

/-- Embedding of `ValidateMemorySemantics` (validate_barriers.cpp, lines
35-173): destructure the `EvalInt32IfConst` triple for the operand id and run
the rule chain. -/
def ValidateMemorySemantics (st : ValidationState) (inst : Instruction)
    (id : Nat) : Option Diagnostic :=
  match st.evalInt32IfConst id with
  | (is_int32, is_const_int32, value) =>
    validateSemanticsValue st inst is_int32 is_const_int32 value

/-- Rewriting lemma: a known `EvalInt32IfConst` triple reduces
`ValidateMemorySemantics` to the rule chain on that triple. -/
theorem validateMemorySemantics_eval (st : ValidationState)
    (inst : Instruction) (id : Nat) (a b : Bool) (c : Nat)
    (h : st.evalInt32IfConst id = (a, b, c)) :
    ValidateMemorySemantics st inst id = validateSemanticsValue st inst a b c := by
  unfold ValidateMemorySemantics
  rw [h]

/-- The closure registered by `RegisterExecutionModelLimitation` for
`OpControlBarrier` (validate_barriers.cpp, lines 188-203): the Bool is the
callback's return value, the `Option String` the message it writes on
failure. -/
def controlBarrierExecutionModelLimitation (model : SpvExecutionModel) :
    Bool × Option String :=
  if model ≠ .TessellationControl ∧ model ≠ .GLCompute ∧ model ≠ .Kernel ∧
      model ≠ .TaskNV ∧ model ≠ .MeshNV then
    (false, some "OpControlBarrier requires one of the following Execution Models: TessellationControl, GLCompute or Kernel")
  else
    (true, none)

/-- A deferred execution-model constraint registered on a function: the id of
the owning function and the predicate evaluated at finalization. -/
structure RegisteredLimitation where
  functionId : Nat
  check : SpvExecutionModel → Bool × Option String

/-- Modelled from the spec: the version gate
`spvVersionForTargetEnv(target_env) < SPV_SPIRV_VERSION_WORD(1, 3)`
(spirv_target_env.cpp and spirv_constant.h are not in src); per the
specification the module's declared IR version must predate version 1.3,
compared lexicographically on (major, minor). -/
def versionLtOneThree (v : Nat × Nat) : Bool :=
  decide (v.1 < 1 ∨ (v.1 = 1 ∧ v.2 < 3))

/-- The three operand checks of the `OpControlBarrier` case, in source order
(execution scope, memory scope, memory semantics); first failure wins. -/
def controlBarrierChecks (st : ValidationState) (inst : Instruction)
    (execution_scope memory_scope memory_semantics : Nat) : Option Diagnostic :=
  match st.validateExecutionScope inst execution_scope with
  | some e => some e
  | none =>
    match st.validateMemoryScope inst memory_scope with
    | some e => some e
    | none => ValidateMemorySemantics st inst memory_semantics

/-- The two operand checks shared by the `OpMemoryBarrier` and
`OpMemoryNamedBarrier` cases: memory scope then memory semantics. -/
def memoryBarrierChecks (st : ValidationState) (inst : Instruction)
    (memory_scope memory_semantics : Nat) : Option Diagnostic :=
  match st.validateMemoryScope inst memory_scope with
  | some e => some e
  | none => ValidateMemorySemantics st inst memory_semantics

/-- The per-opcode switch of `BarriersPass`, taking the scrutinized opcode as
an explicit argument (it is always `inst.opcode`, see `BarriersPass`). -/
def barriersDispatch (st : ValidationState) (inst : Instruction) :
    SpvOp → Option Diagnostic × List RegisteredLimitation
  | .OpControlBarrier =>
    let regs : List RegisteredLimitation :=
      if versionLtOneThree st.irVersion then
        [⟨inst.functionId, controlBarrierExecutionModelLimitation⟩]
      else
        []
    (controlBarrierChecks st inst (inst.word 1) (inst.word 2) (inst.word 3),
      regs)
  | .OpMemoryBarrier =>
    (memoryBarrierChecks st inst (inst.word 1) (inst.word 2), [])
  | .OpNamedBarrierInitialize =>
    if st.getIdOpcode inst.typeId ≠ .OpTypeNamedBarrier then
      (some .namedBarrierInitResultTypeNotNamedBarrier, [])
    else
      let subgroup_count_type := GetOperandTypeId st inst 2
      if st.isIntScalarType subgroup_count_type = false ∨
          st.getBitWidth subgroup_count_type ≠ 32 then
        (some .namedBarrierInitSubgroupCountNotInt32, [])
      else
        (none, [])
  | .OpMemoryNamedBarrier =>
    let named_barrier_type := GetOperandTypeId st inst 0
    if st.getIdOpcode named_barrier_type ≠ .OpTypeNamedBarrier then
      (some .memoryNamedBarrierOperandNotNamedBarrier, [])
    else
      (memoryBarrierChecks st inst (inst.word 2) (inst.word 3), [])
  | _ => (none, [])

/-- Embedding of `BarriersPass` (validate_barriers.cpp, lines 178-281).  The
first component is the returned diagnostic (`none` = `SPV_SUCCESS`); the
second lists the deferred execution-model constraints the call registers on
the owning function (the only mutation the source performs besides building
the diagnostic). -/
def BarriersPass (st : ValidationState) (inst : Instruction) :
    Option Diagnostic × List RegisteredLimitation :=
  barriersDispatch st inst inst.opcode

/-- The per-opcode switch of `BarriersPassChecked`, with every fixed-position
word and operand access bounds-checked: an out-of-range access yields `none`
(stuck), otherwise the result is `some` of the unchecked computation.
Accesses occur in source order. -/
def barriersDispatchChecked (st : ValidationState) (inst : Instruction) :
    SpvOp → Option (Option Diagnostic × List RegisteredLimitation)
  | .OpControlBarrier =>
    let regs : List RegisteredLimitation :=
      if versionLtOneThree st.irVersion then
        [⟨inst.functionId, controlBarrierExecutionModelLimitation⟩]
      else
        []
    match inst.words[1]?, inst.words[2]?, inst.words[3]? with
    | some es, some ms, some sem =>
      some (controlBarrierChecks st inst es ms sem, regs)
    | _, _, _ => none
  | .OpMemoryBarrier =>
    match inst.words[1]?, inst.words[2]? with
    | some ms, some sem => some (memoryBarrierChecks st inst ms sem, [])
    | _, _ => none
  | .OpNamedBarrierInitialize =>
    if st.getIdOpcode inst.typeId ≠ .OpTypeNamedBarrier then
      some (some .namedBarrierInitResultTypeNotNamedBarrier, [])
    else
      match inst.operands[2]? with
      | some opnd =>
        let subgroup_count_type := st.getTypeId opnd
        if st.isIntScalarType subgroup_count_type = false ∨
            st.getBitWidth subgroup_count_type ≠ 32 then
          some (some .namedBarrierInitSubgroupCountNotInt32, [])
        else
          some (none, [])
      | none => none
  | .OpMemoryNamedBarrier =>
    match inst.operands[0]? with
    | some nb =>
      if st.getIdOpcode (st.getTypeId nb) ≠ .OpTypeNamedBarrier then
        some (some .memoryNamedBarrierOperandNotNamedBarrier, [])
      else
        match inst.words[2]?, inst.words[3]? with
        | some ms, some sem => some (memoryBarrierChecks st inst ms sem, [])
        | _, _ => none
    | none => none
  | _ => some (none, [])

/-- Bounds-checked variant of `BarriersPass`. -/
def BarriersPassChecked (st : ValidationState) (inst : Instruction) :
    Option (Option Diagnostic × List RegisteredLimitation) :=
  barriersDispatchChecked st inst inst.opcode

/-- Number of raw words the SPIR-V grammar prescribes for each opcode of the
barrier family (opcode word included). -/
def prescribedNumWords : SpvOp → Nat
  | .OpControlBarrier => 4
  | .OpMemoryBarrier => 3
  | .OpNamedBarrierInitialize => 4
  | .OpMemoryNamedBarrier => 4
  | _ => 1

/-- Number of logical operands the SPIR-V grammar prescribes for each opcode
of the barrier family (result type and result id counted as operands, as the
operand-index-based accessors of the source do). -/
def prescribedNumOperands : SpvOp → Nat
  | .OpControlBarrier => 3
  | .OpMemoryBarrier => 2
  | .OpNamedBarrierInitialize => 3
  | .OpMemoryNamedBarrier => 3
  | _ => 0

/-! Concrete fixtures used by the witness and counterexample theorems. -/

/-- A neutral validation state: no capabilities, non-Vulkan memory model and
environment, IR version 1.3, every memory-semantics operand the constant 0,
trivial type queries, and scope validators that always succeed. -/
def baseState : ValidationState :=
  ⟨fun _ => false, .other 0, false, (1, 3), fun _ => (true, true, 0),
    fun _ => .other 0, fun n => n, fun _ => true, fun _ => 32,
    fun _ _ => none, fun _ _ => none⟩

/-- The neutral state with the memory-semantics operand evaluating to the
constant `v`. -/
def constState (v : Nat) : ValidationState :=
  { baseState with evalInt32IfConst := fun _ => (true, true, v) }

/-- A decoded `OpMemoryBarrier` instruction (memory scope id 8, memory
semantics id 9). -/
def instMB : Instruction := ⟨.OpMemoryBarrier, 0, [0, 8, 9], [8, 9], 0⟩

/-- A decoded `OpControlBarrier` instruction inside function 5. -/
def instCB : Instruction := ⟨.OpControlBarrier, 0, [0, 7, 8, 9], [7, 8, 9], 5⟩

/-- A decoded `OpNamedBarrierInitialize` instruction (result type id 3). -/
def instNBI : Instruction :=
  ⟨.OpNamedBarrierInitialize, 3, [0, 3, 4, 5], [3, 4, 5], 0⟩

/-! Helper lemmas shared by the claim theorems. -/

/-- In-bounds list access: `l[i]?` is `some` of the defaulted access. -/
theorem getD_eq_getElem_opt (l : List Nat) (i : Nat) (h : i < l.length) :
    l[i]? = some (l.getD i 0) := by
  rw [List.getElem?_eq_getElem h, List.getD_eq_getElem?_getD,
    List.getElem?_eq_getElem h, Option.getD_some]

/-- The two Vulkan-environment diagnostics only arise for `OpMemoryBarrier`:
both error sites are guarded by an opcode test in the source. -/
theorem vulkanSite_only_memoryBarrier (st : ValidationState)
    (inst : Instruction) (id : Nat) (d : Diagnostic)
    (hd : d = .vulkanMemoryBarrierNoOrderingBit ∨
      d = .vulkanMemoryBarrierNoStorageClass)
    (h : ValidateMemorySemantics st inst id = some d) :
    inst.opcode = .OpMemoryBarrier := by
  rcases heval : st.evalInt32IfConst id with ⟨a, b, c⟩
  rw [validateMemorySemantics_eval st inst id a b c heval] at h
  unfold validateSemanticsValue at h
  by_cases h1 : a = false
  · rw [if_pos h1] at h
    rcases hd with rfl | rfl <;> exact absurd h (by decide)
  rw [if_neg h1] at h
  by_cases h2 : b = false
  · rw [if_pos h2] at h
    by_cases h2a : st.hasCapability SpvCapability.Shader = true
    · rw [if_pos h2a] at h
      rcases hd with rfl | rfl <;> exact absurd h (by decide)
    · rw [if_neg h2a] at h
      rcases hd with rfl | rfl <;> exact absurd h (by decide)
  rw [if_neg h2] at h
  by_cases h3 : st.memoryModel = SpvMemoryModel.VulkanKHR ∧
      c &&& SpvMemorySemanticsSequentiallyConsistentMask ≠ 0
  · rw [if_pos h3] at h
    rcases hd with rfl | rfl <;> exact absurd h (by decide)
  rw [if_neg h3] at h
  by_cases h4 : c &&& SpvMemorySemanticsOutputMemoryKHRMask ≠ 0 ∧
      st.hasCapability SpvCapability.VulkanMemoryModelKHR = false
  · rw [if_pos h4] at h
    rcases hd with rfl | rfl <;> exact absurd h (by decide)
  rw [if_neg h4] at h
  by_cases h5 : c &&& SpvMemorySemanticsMakeAvailableKHRMask ≠ 0 ∧
      st.hasCapability SpvCapability.VulkanMemoryModelKHR = false
  · rw [if_pos h5] at h
    rcases hd with rfl | rfl <;> exact absurd h (by decide)
  rw [if_neg h5] at h
  by_cases h6 : c &&& SpvMemorySemanticsMakeVisibleKHRMask ≠ 0 ∧
      st.hasCapability SpvCapability.VulkanMemoryModelKHR = false
  · rw [if_pos h6] at h
    rcases hd with rfl | rfl <;> exact absurd h (by decide)
  rw [if_neg h6] at h
  by_cases h7 : 1 < countSetBits (c &&& orderingAxisMask)
  · rw [if_pos h7] at h
    rcases hd with rfl | rfl <;> exact absurd h (by decide)
  rw [if_neg h7] at h
  by_cases h8 : c &&& SpvMemorySemanticsMakeAvailableKHRMask ≠ 0 ∧
      c &&& (SpvMemorySemanticsReleaseMask |||
        SpvMemorySemanticsAcquireReleaseMask) = 0
  · rw [if_pos h8] at h
    rcases hd with rfl | rfl <;> exact absurd h (by decide)
  rw [if_neg h8] at h
  by_cases h9 : c &&& SpvMemorySemanticsMakeVisibleKHRMask ≠ 0 ∧
      c &&& (SpvMemorySemanticsAcquireMask |||
        SpvMemorySemanticsAcquireReleaseMask) = 0
  · rw [if_pos h9] at h
    rcases hd with rfl | rfl <;> exact absurd h (by decide)
  rw [if_neg h9] at h
  by_cases h10 : st.targetEnvIsVulkan = true ∧
      inst.opcode = SpvOp.OpMemoryBarrier ∧
      countSetBits (c &&& orderingAxisMask) = 0
  · exact h10.2.1
  rw [if_neg h10] at h
  by_cases h11 : st.targetEnvIsVulkan = true ∧
      inst.opcode = SpvOp.OpMemoryBarrier ∧ c &&& vulkanStorageClassMask = 0
  · exact h11.2.1
  rw [if_neg h11] at h
  by_cases h12 : c &&& (SpvMemorySemanticsMakeAvailableKHRMask |||
        SpvMemorySemanticsMakeVisibleKHRMask) ≠ 0 ∧
      c &&& fullStorageClassMask = 0
  · rw [if_pos h12] at h
    rcases hd with rfl | rfl <;> exact absurd h (by decide)
  rw [if_neg h12] at h
  rcases hd with rfl | rfl <;> exact absurd h (by decide)

/-- If the paired-ordering-bit diagnostic for MakeAvailableKHR is returned,
the constant value had neither Release nor AcquireRelease set. -/
theorem makeAvailableRelease_site_value (st : ValidationState)
    (inst : Instruction) (id : Nat)
    (h : ValidateMemorySemantics st inst id =
      some .makeAvailableKHRWithoutRelease) :
    (st.evalInt32IfConst id).2.2 &&& (SpvMemorySemanticsReleaseMask |||
      SpvMemorySemanticsAcquireReleaseMask) = 0 := by
  rcases heval : st.evalInt32IfConst id with ⟨a, b, c⟩
  rw [validateMemorySemantics_eval st inst id a b c heval] at h
  unfold validateSemanticsValue at h
  by_cases h1 : a = false
  · rw [if_pos h1] at h; exact absurd h (by decide)
  rw [if_neg h1] at h
  by_cases h2 : b = false
  · rw [if_pos h2] at h
    by_cases h2a : st.hasCapability SpvCapability.Shader = true
    · rw [if_pos h2a] at h; exact absurd h (by decide)
    · rw [if_neg h2a] at h; exact absurd h (by decide)
  rw [if_neg h2] at h
  by_cases h3 : st.memoryModel = SpvMemoryModel.VulkanKHR ∧
      c &&& SpvMemorySemanticsSequentiallyConsistentMask ≠ 0
  · rw [if_pos h3] at h; exact absurd h (by decide)
  rw [if_neg h3] at h
  by_cases h4 : c &&& SpvMemorySemanticsOutputMemoryKHRMask ≠ 0 ∧
      st.hasCapability SpvCapability.VulkanMemoryModelKHR = false
  · rw [if_pos h4] at h; exact absurd h (by decide)
  rw [if_neg h4] at h
  by_cases h5 : c &&& SpvMemorySemanticsMakeAvailableKHRMask ≠ 0 ∧
      st.hasCapability SpvCapability.VulkanMemoryModelKHR = false
  · rw [if_pos h5] at h; exact absurd h (by decide)
  rw [if_neg h5] at h
  by_cases h6 : c &&& SpvMemorySemanticsMakeVisibleKHRMask ≠ 0 ∧
      st.hasCapability SpvCapability.VulkanMemoryModelKHR = false
  · rw [if_pos h6] at h; exact absurd h (by decide)
  rw [if_neg h6] at h
  by_cases h7 : 1 < countSetBits (c &&& orderingAxisMask)
  · rw [if_pos h7] at h; exact absurd h (by decide)
  rw [if_neg h7] at h
  by_cases h8 : c &&& SpvMemorySemanticsMakeAvailableKHRMask ≠ 0 ∧
      c &&& (SpvMemorySemanticsReleaseMask |||
        SpvMemorySemanticsAcquireReleaseMask) = 0
  · exact h8.2
  rw [if_neg h8] at h
  by_cases h9 : c &&& SpvMemorySemanticsMakeVisibleKHRMask ≠ 0 ∧
      c &&& (SpvMemorySemanticsAcquireMask |||
        SpvMemorySemanticsAcquireReleaseMask) = 0
  · rw [if_pos h9] at h; exact absurd h (by decide)
  rw [if_neg h9] at h
  by_cases h10 : st.targetEnvIsVulkan = true ∧
      inst.opcode = SpvOp.OpMemoryBarrier ∧
      countSetBits (c &&& orderingAxisMask) = 0
  · rw [if_pos h10] at h; exact absurd h (by decide)
  rw [if_neg h10] at h
  by_cases h11 : st.targetEnvIsVulkan = true ∧
      inst.opcode = SpvOp.OpMemoryBarrier ∧ c &&& vulkanStorageClassMask = 0
  · rw [if_pos h11] at h; exact absurd h (by decide)
  rw [if_neg h11] at h
  by_cases h12 : c &&& (SpvMemorySemanticsMakeAvailableKHRMask |||
        SpvMemorySemanticsMakeVisibleKHRMask) ≠ 0 ∧
      c &&& fullStorageClassMask = 0
  · rw [if_pos h12] at h; exact absurd h (by decide)
  rw [if_neg h12] at h
  exact absurd h (by decide)

/-- The neutral state with declared IR version 1.0 (predating 1.3). -/
def stVer10 : ValidationState := { baseState with irVersion := (1, 0) }

/-- C1: for SpvOpControlBarrier, the pass registers the deferred
execution-model constraint on the owning function exactly when the declared
IR version predates 1.3; the registered predicate returns true exactly for
TessellationControl, GLCompute, Kernel, TaskNV and MeshNV, and on failure
writes the message naming TessellationControl, GLCompute or Kernel. -/
theorem controlBarrier_deferred_constraint (st : ValidationState)
    (inst : Instruction) (h : inst.opcode = .OpControlBarrier) :
    (BarriersPass st inst).2 =
      (if versionLtOneThree st.irVersion then
        [⟨inst.functionId, controlBarrierExecutionModelLimitation⟩]
      else
        []) ∧
    (∀ m : SpvExecutionModel,
      (controlBarrierExecutionModelLimitation m).1 = true ↔
        (m = .TessellationControl ∨ m = .GLCompute ∨ m = .Kernel ∨
          m = .TaskNV ∨ m = .MeshNV)) ∧
    (∀ m : SpvExecutionModel,
      (controlBarrierExecutionModelLimitation m).1 = false →
      (controlBarrierExecutionModelLimitation m).2 =
        some "OpControlBarrier requires one of the following Execution Models: TessellationControl, GLCompute or Kernel") := by
  refine ⟨?_, ?_, ?_⟩
  · unfold BarriersPass
    rw [h]
    rfl
  · intro m
    cases m <;> simp [controlBarrierExecutionModelLimitation]
  · intro m hm
    cases m <;> simp_all [controlBarrierExecutionModelLimitation]

/-- Witness for C1 at a version-1.0 state: one constraint is registered, the
predicate accepts GLCompute, rejects Vertex, and the rejection message is the
verbatim source text. -/
theorem controlBarrier_deferred_constraint_witness :
    (BarriersPass stVer10 instCB).2 =
      [⟨5, controlBarrierExecutionModelLimitation⟩] ∧
    (controlBarrierExecutionModelLimitation .GLCompute).1 = true ∧
    (controlBarrierExecutionModelLimitation .Vertex).1 = false ∧
    (controlBarrierExecutionModelLimitation .Vertex).2 =
      some "OpControlBarrier requires one of the following Execution Models: TessellationControl, GLCompute or Kernel" := by
  obtain ⟨h1, h2, h3⟩ := controlBarrier_deferred_constraint stVer10 instCB rfl
  exact ⟨h1.trans rfl, (h2 .GLCompute).mpr (Or.inr (Or.inl rfl)),
    by decide, h3 .Vertex (by decide)⟩

/-- The neutral state with a non-constant 32-bit memory-semantics operand and
only the Shader capability. -/
def stShaderNonConst : ValidationState :=
  { baseState with
    evalInt32IfConst := fun _ => (true, false, 7)
    hasCapability := fun c => decide (c = .Shader) }

/-- The neutral state with a non-constant 32-bit memory-semantics operand and
no capabilities. -/
def stNoCapsNonConst : ValidationState :=
  { baseState with evalInt32IfConst := fun _ => (true, false, 7) }

/-- C3: a memory-semantics operand that is a 32-bit integer but not a
compile-time constant succeeds exactly when the Shader capability is absent;
no later rule sees the (arbitrary) value the operand might hold. -/
theorem nonConstant_shader_gate (st : ValidationState) (inst : Instruction)
    (id v : Nat) (heval : st.evalInt32IfConst id = (true, false, v)) :
    ValidateMemorySemantics st inst id =
      if st.hasCapability .Shader = true then
        some .semanticsNotConstWithShader
      else
        none := by
  rw [validateMemorySemantics_eval st inst id true false v heval]
  unfold validateSemanticsValue
  rw [if_neg (by decide), if_pos rfl]

/-- Witness for C3: with Shader the non-constant operand is rejected, without
any capability it is accepted. -/
theorem nonConstant_shader_gate_witness :
    ValidateMemorySemantics stShaderNonConst instMB 9 =
      some .semanticsNotConstWithShader ∧
    ValidateMemorySemantics stNoCapsNonConst instMB 9 = none := by
  constructor
  · rw [nonConstant_shader_gate stShaderNonConst instMB 9 7 rfl]
    decide
  · rw [nonConstant_shader_gate stNoCapsNonConst instMB 9 7 rfl]
    decide

/-- A VulkanKHR-memory-model state with every capability, a Vulkan target
environment, and constant semantics value
Acquire, SequentiallyConsistent, UniformMemory and MakeVisibleKHR. -/
def stC4 : ValidationState :=
  { constState 0x20112 with
    memoryModel := .VulkanKHR
    targetEnvIsVulkan := true
    hasCapability := fun _ => true }

/-- C4: a 32-bit constant with the SequentiallyConsistent bit set under the
VulkanKHR memory model fails with the memory-model incompatibility
diagnostic, whatever the other bits, the environment and the capabilities. -/
theorem seqCst_vulkan_model_incompatible (st : ValidationState)
    (inst : Instruction) (id v : Nat)
    (heval : st.evalInt32IfConst id = (true, true, v))
    (hmm : st.memoryModel = .VulkanKHR)
    (hbit : v &&& SpvMemorySemanticsSequentiallyConsistentMask ≠ 0) :
    ValidateMemorySemantics st inst id = some .seqCstWithVulkanKHRModel := by
  rw [validateMemorySemantics_eval st inst id true true v heval]
  unfold validateSemanticsValue
  rw [if_neg (by decide), if_neg (by decide), if_pos ⟨hmm, hbit⟩]

/-- Witness for C4 at a state with many other bits, a Vulkan environment and
all capabilities present. -/
theorem seqCst_vulkan_model_incompatible_witness :
    ValidateMemorySemantics stC4 instMB 9 = some .seqCstWithVulkanKHRModel :=
  seqCst_vulkan_model_incompatible stC4 instMB 9 0x20112 rfl rfl (by decide)

/-- The capability-free neutral state whose constant semantics value is
Acquire, Release and MakeAvailableKHR (0x10006). -/
def stC2 : ValidationState := constState 0x10006

/-- C2 counterexample: the constant 0x10006 has two ordering-axis bits set
(Acquire and Release), yet in a state without the VulkanMemoryModelKHR
capability the validator returns the MakeAvailableKHR capability diagnostic,
not the conflicting-ordering-bits diagnostic: an earlier rule can win, so the
claimed outcome is not independent of the other bits. -/
theorem conflictingOrdering_not_first :
    1 < countSetBits (0x10006 &&& orderingAxisMask) ∧
    stC2.evalInt32IfConst 9 = (true, true, 0x10006) ∧
    ValidateMemorySemantics stC2 instMB 9 ≠ some .multipleOrderingBits ∧
    ValidateMemorySemantics stC2 instMB 9 = some .makeAvailableKHRWithoutCap :=
  ⟨by decide, rfl, by decide, by decide⟩

/-- C2 amended: a 32-bit constant with more than one ordering-axis bit set
yields the conflicting-ordering-bits diagnostic regardless of the other bits,
provided no earlier rule fires, i.e. the value does not combine
SequentiallyConsistent with the VulkanKHR memory model and each set modifier
bit (OutputMemoryKHR, MakeAvailableKHR, MakeVisibleKHR) is backed by the
VulkanMemoryModelKHR capability. -/
theorem conflictingOrdering_when_no_earlier_rule (st : ValidationState)
    (inst : Instruction) (id v : Nat)
    (heval : st.evalInt32IfConst id = (true, true, v))
    (hv : v < 2 ^ 32)
    (hord : 1 < countSetBits (v &&& orderingAxisMask))
    (hseq : ¬(st.memoryModel = .VulkanKHR ∧
      v &&& SpvMemorySemanticsSequentiallyConsistentMask ≠ 0))
    (hout : v &&& SpvMemorySemanticsOutputMemoryKHRMask ≠ 0 →
      st.hasCapability .VulkanMemoryModelKHR = true)
    (hav : v &&& SpvMemorySemanticsMakeAvailableKHRMask ≠ 0 →
      st.hasCapability .VulkanMemoryModelKHR = true)
    (hvis : v &&& SpvMemorySemanticsMakeVisibleKHRMask ≠ 0 →
      st.hasCapability .VulkanMemoryModelKHR = true) :
    ValidateMemorySemantics st inst id = some .multipleOrderingBits := by
  rw [validateMemorySemantics_eval st inst id true true v heval]
  unfold validateSemanticsValue
  have h4 : ¬(v &&& SpvMemorySemanticsOutputMemoryKHRMask ≠ 0 ∧
      st.hasCapability SpvCapability.VulkanMemoryModelKHR = false) := by
    rintro ⟨ha, hb⟩
    rw [hout ha] at hb
    exact absurd hb (by decide)
  have h5 : ¬(v &&& SpvMemorySemanticsMakeAvailableKHRMask ≠ 0 ∧
      st.hasCapability SpvCapability.VulkanMemoryModelKHR = false) := by
    rintro ⟨ha, hb⟩
    rw [hav ha] at hb
    exact absurd hb (by decide)
  have h6 : ¬(v &&& SpvMemorySemanticsMakeVisibleKHRMask ≠ 0 ∧
      st.hasCapability SpvCapability.VulkanMemoryModelKHR = false) := by
    rintro ⟨ha, hb⟩
    rw [hvis ha] at hb
    exact absurd hb (by decide)
  rw [if_neg (by decide), if_neg (by decide), if_neg hseq, if_neg h4,
    if_neg h5, if_neg h6, if_pos hord]

/-- The capability-free neutral state whose constant semantics value is
Acquire, Release and UniformMemory (0x106). -/
def stC2w : ValidationState := constState 0x106

/-- Witness for the amended C2 at the concrete value 0x106. -/
theorem conflictingOrdering_when_no_earlier_rule_witness :
    ValidateMemorySemantics stC2w instMB 9 = some .multipleOrderingBits :=
  conflictingOrdering_when_no_earlier_rule stC2w instMB 9 0x106 rfl
    (by decide) (by decide) (by decide) (by decide) (by decide) (by decide)

/-- The all-capabilities neutral state whose constant semantics value is
Acquire, SequentiallyConsistent and MakeAvailableKHR (0x10012). -/
def stC5 : ValidationState :=
  { constState 0x10012 with hasCapability := fun _ => true }

/-- C5 counterexample: value 0x10012 has MakeAvailableKHR set, neither
Release nor AcquireRelease set, and the VulkanMemoryModelKHR capability is
present, yet the validator returns the conflicting-ordering-bits diagnostic
(Acquire and SequentiallyConsistent are both set), not the
missing-paired-ordering-bit diagnostic. -/
theorem makeAvailable_paired_bit_not_first :
    stC5.hasCapability .VulkanMemoryModelKHR = true ∧
    stC5.evalInt32IfConst 9 = (true, true, 0x10012) ∧
    0x10012 &&& SpvMemorySemanticsMakeAvailableKHRMask ≠ 0 ∧
    0x10012 &&& (SpvMemorySemanticsReleaseMask |||
      SpvMemorySemanticsAcquireReleaseMask) = 0 ∧
    ValidateMemorySemantics stC5 instMB 9 ≠
      some .makeAvailableKHRWithoutRelease ∧
    ValidateMemorySemantics stC5 instMB 9 = some .multipleOrderingBits :=
  ⟨rfl, rfl, by decide, by decide, by decide, by decide⟩

/-- C5 amended: (a) a constant with MakeAvailableKHR set and the
VulkanMemoryModelKHR capability absent fails with a
missing-capability-for-modifier diagnostic (before any paired-ordering-bit
rule), provided SequentiallyConsistent-under-VulkanKHR does not fire first;
(b) with the capability present, MakeAvailableKHR without Release or
AcquireRelease fails with the missing-paired-ordering-bit diagnostic,
provided no earlier rule (memory-model conflict, conflicting ordering bits)
fires first; (c) a value with Release or AcquireRelease set never produces
that diagnostic. -/
theorem makeAvailable_modifier_rules :
    (∀ (st : ValidationState) (inst : Instruction) (id v : Nat),
      st.evalInt32IfConst id = (true, true, v) →
      v &&& SpvMemorySemanticsMakeAvailableKHRMask ≠ 0 →
      st.hasCapability .VulkanMemoryModelKHR = false →
      ¬(st.memoryModel = .VulkanKHR ∧
        v &&& SpvMemorySemanticsSequentiallyConsistentMask ≠ 0) →
      ∃ d, ValidateMemorySemantics st inst id = some d ∧
        d.missingCapForModifier = true) ∧
    (∀ (st : ValidationState) (inst : Instruction) (id v : Nat),
      st.evalInt32IfConst id = (true, true, v) →
      st.hasCapability .VulkanMemoryModelKHR = true →
      ¬(st.memoryModel = .VulkanKHR ∧
        v &&& SpvMemorySemanticsSequentiallyConsistentMask ≠ 0) →
      countSetBits (v &&& orderingAxisMask) ≤ 1 →
      v &&& SpvMemorySemanticsMakeAvailableKHRMask ≠ 0 →
      v &&& (SpvMemorySemanticsReleaseMask |||
        SpvMemorySemanticsAcquireReleaseMask) = 0 →
      ValidateMemorySemantics st inst id =
        some .makeAvailableKHRWithoutRelease) ∧
    (∀ (st : ValidationState) (inst : Instruction) (id : Nat),
      (st.evalInt32IfConst id).2.2 &&& (SpvMemorySemanticsReleaseMask |||
        SpvMemorySemanticsAcquireReleaseMask) ≠ 0 →
      ValidateMemorySemantics st inst id ≠
        some .makeAvailableKHRWithoutRelease) := by
  refine ⟨?_, ?_, ?_⟩
  · intro st inst id v heval hmav hcap hseq
    rw [validateMemorySemantics_eval st inst id true true v heval]
    unfold validateSemanticsValue
    rw [if_neg (by decide), if_neg (by decide), if_neg hseq]
    by_cases h4 : v &&& SpvMemorySemanticsOutputMemoryKHRMask ≠ 0 ∧
        st.hasCapability SpvCapability.VulkanMemoryModelKHR = false
    · rw [if_pos h4]
      exact ⟨_, rfl, rfl⟩
    · rw [if_neg h4, if_pos ⟨hmav, hcap⟩]
      exact ⟨_, rfl, rfl⟩
  · intro st inst id v heval hcap hseq hord hmav hrel
    rw [validateMemorySemantics_eval st inst id true true v heval]
    unfold validateSemanticsValue
    have hc : ∀ m : Nat, ¬(v &&& m ≠ 0 ∧
        st.hasCapability SpvCapability.VulkanMemoryModelKHR = false) := by
      rintro m ⟨_, hb⟩
      rw [hcap] at hb
      exact absurd hb (by decide)
    rw [if_neg (by decide), if_neg (by decide), if_neg hseq, if_neg (hc _),
      if_neg (hc _), if_neg (hc _), if_neg (Nat.not_lt.mpr hord),
      if_pos ⟨hmav, hrel⟩]
  · intro st inst id hrel hcon
    exact hrel (makeAvailableRelease_site_value st inst id hcon)

/-- The all-capabilities neutral state whose constant semantics value is
MakeAvailableKHR alone (0x10000). -/
def stC5w : ValidationState :=
  { constState 0x10000 with hasCapability := fun _ => true }

/-- The all-capabilities neutral state whose constant semantics value is
AcquireRelease, WorkgroupMemory and MakeAvailableKHR (0x10408). -/
def stC5p : ValidationState :=
  { constState 0x10408 with hasCapability := fun _ => true }

/-- Witness for the amended C5: MakeAvailableKHR alone (capability present)
fails with the missing-paired-ordering-bit diagnostic, and adding
AcquireRelease makes that specific check pass. -/
theorem makeAvailable_modifier_rules_witness :
    ValidateMemorySemantics stC5w instMB 9 =
      some .makeAvailableKHRWithoutRelease ∧
    ValidateMemorySemantics stC5p instMB 9 ≠
      some .makeAvailableKHRWithoutRelease := by
  obtain ⟨h1, h2, h3⟩ := makeAvailable_modifier_rules
  exact ⟨h2 stC5w instMB 9 0x10000 rfl rfl (by decide) (by decide)
      (by decide) (by decide),
    h3 stC5p instMB 9 (by decide)⟩

/-- C6: under a Vulkan-family environment the non-empty-ordering-axis and
non-empty-restricted-storage-class requirements apply only to
`OpMemoryBarrier` (parts one and two); for that opcode the ordering check is
evaluated before the storage-class check (parts three and four, the ordering
diagnostic winning whatever the storage bits); the symmetric storage-class
requirement for `OpControlBarrier` is disabled, so a control barrier never
receives either Vulkan-specific diagnostic (part five). -/
theorem vulkan_checks_memoryBarrier_only :
    (∀ (st : ValidationState) (inst : Instruction) (id : Nat),
      ValidateMemorySemantics st inst id =
        some .vulkanMemoryBarrierNoOrderingBit →
      inst.opcode = .OpMemoryBarrier) ∧
    (∀ (st : ValidationState) (inst : Instruction) (id : Nat),
      ValidateMemorySemantics st inst id =
        some .vulkanMemoryBarrierNoStorageClass →
      inst.opcode = .OpMemoryBarrier) ∧
    (∀ (st : ValidationState) (inst : Instruction) (id v : Nat),
      st.evalInt32IfConst id = (true, true, v) →
      st.targetEnvIsVulkan = true →
      inst.opcode = .OpMemoryBarrier →
      v &&& SpvMemorySemanticsOutputMemoryKHRMask = 0 →
      v &&& SpvMemorySemanticsMakeAvailableKHRMask = 0 →
      v &&& SpvMemorySemanticsMakeVisibleKHRMask = 0 →
      ¬(st.memoryModel = .VulkanKHR ∧
        v &&& SpvMemorySemanticsSequentiallyConsistentMask ≠ 0) →
      countSetBits (v &&& orderingAxisMask) = 0 →
      ValidateMemorySemantics st inst id =
        some .vulkanMemoryBarrierNoOrderingBit) ∧
    (∀ (st : ValidationState) (inst : Instruction) (id v : Nat),
      st.evalInt32IfConst id = (true, true, v) →
      st.targetEnvIsVulkan = true →
      inst.opcode = .OpMemoryBarrier →
      v &&& SpvMemorySemanticsOutputMemoryKHRMask = 0 →
      v &&& SpvMemorySemanticsMakeAvailableKHRMask = 0 →
      v &&& SpvMemorySemanticsMakeVisibleKHRMask = 0 →
      ¬(st.memoryModel = .VulkanKHR ∧
        v &&& SpvMemorySemanticsSequentiallyConsistentMask ≠ 0) →
      countSetBits (v &&& orderingAxisMask) = 1 →
      v &&& vulkanStorageClassMask = 0 →
      ValidateMemorySemantics st inst id =
        some .vulkanMemoryBarrierNoStorageClass) ∧
    (∀ (st : ValidationState) (inst : Instruction) (id : Nat),
      inst.opcode = .OpControlBarrier →
      ValidateMemorySemantics st inst id ≠
        some .vulkanMemoryBarrierNoOrderingBit ∧
      ValidateMemorySemantics st inst id ≠
        some .vulkanMemoryBarrierNoStorageClass) := by
  refine ⟨?_, ?_, ?_, ?_, ?_⟩
  · intro st inst id h
    exact vulkanSite_only_memoryBarrier st inst id _ (Or.inl rfl) h
  · intro st inst id h
    exact vulkanSite_only_memoryBarrier st inst id _ (Or.inr rfl) h
  · intro st inst id v heval henv hopc hout hmav hmvis hseq hcnt
    rw [validateMemorySemantics_eval st inst id true true v heval]
    unfold validateSemanticsValue
    rw [if_neg (by decide), if_neg (by decide), if_neg hseq,
      if_neg (fun hx => hx.1 hout), if_neg (fun hx => hx.1 hmav),
      if_neg (fun hx => hx.1 hmvis),
      if_neg (by omega),
      if_neg (fun hx => hx.1 hmav), if_neg (fun hx => hx.1 hmvis),
      if_pos ⟨henv, hopc, hcnt⟩]
  · intro st inst id v heval henv hopc hout hmav hmvis hseq hcnt hstore
    rw [validateMemorySemantics_eval st inst id true true v heval]
    unfold validateSemanticsValue
    rw [if_neg (by decide), if_neg (by decide), if_neg hseq,
      if_neg (fun hx => hx.1 hout), if_neg (fun hx => hx.1 hmav),
      if_neg (fun hx => hx.1 hmvis), if_neg (by omega),
      if_neg (fun hx => hx.1 hmav), if_neg (fun hx => hx.1 hmvis),
      if_neg (by rintro ⟨-, -, hc⟩; omega), if_pos ⟨henv, hopc, hstore⟩]
  · intro st inst id hopc
    constructor
    · intro hcon
      have hmb := vulkanSite_only_memoryBarrier st inst id _ (Or.inl rfl) hcon
      rw [hopc] at hmb
      exact absurd hmb (by decide)
    · intro hcon
      have hmb := vulkanSite_only_memoryBarrier st inst id _ (Or.inr rfl) hcon
      rw [hopc] at hmb
      exact absurd hmb (by decide)

/-- A Vulkan-environment state whose constant semantics value is 0. -/
def stC6a : ValidationState := { constState 0 with targetEnvIsVulkan := true }

/-- A Vulkan-environment state whose constant semantics value is Acquire. -/
def stC6b : ValidationState :=
  { constState 0x2 with targetEnvIsVulkan := true }

/-- Witness for C6: under a Vulkan environment a memory barrier with value 0
gets the ordering diagnostic (before the storage one), with value Acquire it
gets the storage-class diagnostic, and a control barrier with the same
storage-free value gets neither. -/
theorem vulkan_checks_memoryBarrier_only_witness :
    ValidateMemorySemantics stC6a instMB 9 =
      some .vulkanMemoryBarrierNoOrderingBit ∧
    ValidateMemorySemantics stC6b instMB 9 =
      some .vulkanMemoryBarrierNoStorageClass ∧
    ValidateMemorySemantics stC6b instCB 9 ≠
      some .vulkanMemoryBarrierNoOrderingBit ∧
    ValidateMemorySemantics stC6b instCB 9 ≠
      some .vulkanMemoryBarrierNoStorageClass := by
  obtain ⟨-, -, h3, h4, h5⟩ := vulkan_checks_memoryBarrier_only
  obtain ⟨h5a, h5b⟩ := h5 stC6b instCB 9 rfl
  exact ⟨h3 stC6a instMB 9 0 rfl rfl rfl (by decide) (by decide) (by decide)
      (by decide) (by decide),
    h4 stC6b instMB 9 0x2 rfl rfl rfl (by decide) (by decide) (by decide)
      (by decide) (by decide) (by decide),
    h5a, h5b⟩

/-- C7: for SpvOpControlBarrier the deferred constraint is registered
whenever the version gate holds, independently of the outcome of the three
operand checks (part one quantifies over arbitrary scope validators, failing
ones included); the operand checks run in the fixed order execution scope,
memory scope, memory semantics, and the first failing check's diagnostic is
the one returned (parts two to four). -/
theorem controlBarrier_registration_and_order (st : ValidationState)
    (inst : Instruction) (h : inst.opcode = .OpControlBarrier) :
    (BarriersPass st inst).2 =
      (if versionLtOneThree st.irVersion then
        [⟨inst.functionId, controlBarrierExecutionModelLimitation⟩]
      else
        []) ∧
    (∀ e, st.validateExecutionScope inst (inst.word 1) = some e →
      (BarriersPass st inst).1 = some e) ∧
    (∀ e, st.validateExecutionScope inst (inst.word 1) = none →
      st.validateMemoryScope inst (inst.word 2) = some e →
      (BarriersPass st inst).1 = some e) ∧
    (st.validateExecutionScope inst (inst.word 1) = none →
      st.validateMemoryScope inst (inst.word 2) = none →
      (BarriersPass st inst).1 =
        ValidateMemorySemantics st inst (inst.word 3)) := by
  have hbp : (BarriersPass st inst).1 =
      controlBarrierChecks st inst (inst.word 1) (inst.word 2)
        (inst.word 3) := by
    unfold BarriersPass
    rw [h]
    rfl
  refine ⟨?_, ?_, ?_, ?_⟩
  · unfold BarriersPass
    rw [h]
    rfl
  · intro e he
    rw [hbp]
    unfold controlBarrierChecks
    rw [he]
  · intro e h1 h2
    rw [hbp]
    unfold controlBarrierChecks
    rw [h1, h2]
  · intro h1 h2
    rw [hbp]
    unfold controlBarrierChecks
    rw [h1, h2]

/-- A version-1.0 state whose execution-scope validator always fails with an
external scope diagnostic. -/
def stC7 : ValidationState :=
  { stVer10 with validateExecutionScope := fun _ _ => some (.scopeDiag 3) }

/-- Witness for C7: with a failing execution-scope validator the scope
diagnostic is returned, yet the deferred constraint is still registered. -/
theorem controlBarrier_registration_and_order_witness :
    (BarriersPass stC7 instCB).1 = some (.scopeDiag 3) ∧
    (BarriersPass stC7 instCB).2 =
      [⟨5, controlBarrierExecutionModelLimitation⟩] := by
  obtain ⟨h1, h2, -, -⟩ := controlBarrier_registration_and_order stC7 instCB rfl
  exact ⟨h2 (.scopeDiag 3) rfl, h1.trans rfl⟩

/-- A state in which every result-type lookup fails to be a named barrier and
every subgroup-count type fails to be an integer scalar. -/
def stC8bad : ValidationState :=
  { baseState with
    getIdOpcode := fun _ => .other 0
    isIntScalarType := fun _ => false }

/-- A state in which result types resolve to OpTypeNamedBarrier but types are
64 bits wide. -/
def stC8sub : ValidationState :=
  { baseState with
    getIdOpcode := fun _ => .OpTypeNamedBarrier
    getBitWidth := fun _ => 64 }

/-- A state in which result types resolve to OpTypeNamedBarrier and types are
32-bit integer scalars. -/
def stC8ok : ValidationState :=
  { baseState with getIdOpcode := fun _ => .OpTypeNamedBarrier }

/-- C8: for SpvOpNamedBarrierInitialize the result-type check runs first and
its diagnostic is returned whenever it fails, regardless of the subgroup
count's type (part one); only when it passes is the third operand's type
inspected, failing with the subgroup-count diagnostic when it is not a 32-bit
integer scalar and succeeding otherwise (part two). -/
theorem namedBarrierInitialize_order (st : ValidationState)
    (inst : Instruction) (h : inst.opcode = .OpNamedBarrierInitialize) :
    (st.getIdOpcode inst.typeId ≠ .OpTypeNamedBarrier →
      BarriersPass st inst =
        (some .namedBarrierInitResultTypeNotNamedBarrier, [])) ∧
    (st.getIdOpcode inst.typeId = .OpTypeNamedBarrier →
      (st.isIntScalarType (GetOperandTypeId st inst 2) = false ∨
          st.getBitWidth (GetOperandTypeId st inst 2) ≠ 32 →
        BarriersPass st inst =
          (some .namedBarrierInitSubgroupCountNotInt32, [])) ∧
      (¬(st.isIntScalarType (GetOperandTypeId st inst 2) = false ∨
          st.getBitWidth (GetOperandTypeId st inst 2) ≠ 32) →
        BarriersPass st inst = (none, []))) := by
  have hbp : BarriersPass st inst =
      barriersDispatch st inst .OpNamedBarrierInitialize := by
    unfold BarriersPass
    rw [h]
  refine ⟨?_, ?_⟩
  · intro hne
    rw [hbp]
    simp only [barriersDispatch]
    rw [if_pos hne]
  · intro heq
    refine ⟨?_, ?_⟩
    · intro hbad
      rw [hbp]
      simp only [barriersDispatch]
      rw [if_neg (fun hx => hx heq), if_pos hbad]
    · intro hok
      rw [hbp]
      simp only [barriersDispatch]
      rw [if_neg (fun hx => hx heq), if_neg hok]

/-- Witness for C8: when both the result type and the subgroup-count type are
wrong the result-type diagnostic wins; with a good result type the
subgroup-count check decides. -/
theorem namedBarrierInitialize_order_witness :
    BarriersPass stC8bad instNBI =
      (some .namedBarrierInitResultTypeNotNamedBarrier, []) ∧
    BarriersPass stC8sub instNBI =
      (some .namedBarrierInitSubgroupCountNotInt32, []) ∧
    BarriersPass stC8ok instNBI = (none, []) := by
  obtain ⟨h1, -⟩ := namedBarrierInitialize_order stC8bad instNBI rfl
  obtain ⟨-, h2⟩ := namedBarrierInitialize_order stC8sub instNBI rfl
  obtain ⟨-, h3⟩ := namedBarrierInitialize_order stC8ok instNBI rfl
  exact ⟨h1 (by decide), (h2 rfl).1 (by decide), (h3 rfl).2 (by decide)⟩

/-- C9: the outcome of `ValidateMemorySemantics` is a deterministic function
of the instruction's opcode, the constant-evaluation triple of the operand
id, the capability set, the declared memory model and the target
environment: two calls agreeing on these agree on the result.  The embedding
is a pure function, so a call performs no state mutation by construction. -/
theorem validateMemorySemantics_deterministic (st1 st2 : ValidationState)
    (i1 i2 : Instruction) (id1 id2 : Nat)
    (hop : i1.opcode = i2.opcode)
    (heval : st1.evalInt32IfConst id1 = st2.evalInt32IfConst id2)
    (hcap : st1.hasCapability = st2.hasCapability)
    (hmm : st1.memoryModel = st2.memoryModel)
    (henv : st1.targetEnvIsVulkan = st2.targetEnvIsVulkan) :
    ValidateMemorySemantics st1 i1 id1 = ValidateMemorySemantics st2 i2 id2 := by
  rcases h1 : st1.evalInt32IfConst id1 with ⟨a, b, c⟩
  have h2 : st2.evalInt32IfConst id2 = (a, b, c) := by
    rw [← heval, h1]
  rw [validateMemorySemantics_eval st1 i1 id1 a b c h1,
    validateMemorySemantics_eval st2 i2 id2 a b c h2]
  unfold validateSemanticsValue
  rw [hop, hcap, hmm, henv]

/-- A second decoded `OpMemoryBarrier` instruction with different ids and
words. -/
def instMB2 : Instruction := ⟨.OpMemoryBarrier, 1, [0, 30, 31], [30, 31], 4⟩

/-- A state differing from the neutral one in every field the memory
semantics validator does not read. -/
def stC9 : ValidationState :=
  { baseState with
    irVersion := (0, 0)
    getBitWidth := fun _ => 64
    getIdOpcode := fun _ => .OpTypeNamedBarrier
    validateExecutionScope := fun _ _ => some (.scopeDiag 1) }

/-- Witness for C9 at two states and instructions differing only in fields
outside the stated dependency set. -/
theorem validateMemorySemantics_deterministic_witness :
    ValidateMemorySemantics baseState instMB 9 =
      ValidateMemorySemantics stC9 instMB2 11 :=
  validateMemorySemantics_deterministic baseState stC9 instMB instMB2 9 11
    rfl rfl rfl rfl rfl

/-- C10: every fixed-position word and operand access of the dispatcher is
in-bounds once the instruction carries the word and operand counts its opcode
prescribes: the bounds-checked variant never reaches its out-of-range branch
and agrees with the unchecked pass. -/
theorem barriersPass_accesses_in_bounds (st : ValidationState)
    (inst : Instruction)
    (hw : inst.words.length = prescribedNumWords inst.opcode)
    (ho : inst.operands.length = prescribedNumOperands inst.opcode) :
    BarriersPassChecked st inst = some (BarriersPass st inst) := by
  obtain ⟨op, tId, ws, ops, fid⟩ := inst
  dsimp only at hw ho
  unfold BarriersPassChecked BarriersPass
  dsimp only
  cases op with
  | OpControlBarrier =>
    dsimp only [prescribedNumWords] at hw
    simp only [barriersDispatchChecked, barriersDispatch]
    rw [getD_eq_getElem_opt ws 1 (by omega), getD_eq_getElem_opt ws 2 (by omega),
      getD_eq_getElem_opt ws 3 (by omega)]
    rfl
  | OpMemoryBarrier =>
    dsimp only [prescribedNumWords] at hw
    simp only [barriersDispatchChecked, barriersDispatch]
    rw [getD_eq_getElem_opt ws 1 (by omega), getD_eq_getElem_opt ws 2 (by omega)]
    rfl
  | OpNamedBarrierInitialize =>
    dsimp only [prescribedNumOperands] at ho
    simp only [barriersDispatchChecked, barriersDispatch]
    rw [getD_eq_getElem_opt ops 2 (by omega)]
    dsimp only [GetOperandTypeId]
    by_cases hc : st.getIdOpcode tId ≠ SpvOp.OpTypeNamedBarrier
    · rw [if_pos hc, if_pos hc]
    · rw [if_neg hc, if_neg hc]
      by_cases hc2 : st.isIntScalarType (st.getTypeId (ops.getD 2 0)) = false ∨
          st.getBitWidth (st.getTypeId (ops.getD 2 0)) ≠ 32
      · rw [if_pos hc2, if_pos hc2]
      · rw [if_neg hc2, if_neg hc2]
  | OpMemoryNamedBarrier =>
    dsimp only [prescribedNumWords] at hw
    dsimp only [prescribedNumOperands] at ho
    simp only [barriersDispatchChecked, barriersDispatch]
    rw [getD_eq_getElem_opt ops 0 (by omega)]
    dsimp only [GetOperandTypeId, Instruction.word]
    by_cases hc : st.getIdOpcode (st.getTypeId (ops.getD 0 0)) ≠
        SpvOp.OpTypeNamedBarrier
    · rw [if_pos hc, if_pos hc]
    · rw [if_neg hc, if_neg hc]
      rw [getD_eq_getElem_opt ws 2 (by omega), getD_eq_getElem_opt ws 3 (by omega)]
  | OpTypeNamedBarrier => rfl
  | other n => rfl

/-- Witness for C10 at the concrete control-barrier instruction, whose word
and operand lists have exactly the prescribed lengths. -/
theorem barriersPass_accesses_in_bounds_witness :
    BarriersPassChecked baseState instCB = some (BarriersPass baseState instCB) :=
  barriersPass_accesses_in_bounds baseState instCB rfl rfl

end SpirvVal
